import Mathlib

/-!
Verification of the detection engine in `src/scripts/scan_custom_node.py`.

The scanner is embedded shallowly:

* Pure repository code (`_static_scan`, `_full_name`, `_extract_string_literals`,
  `_extract_urls_from_call`, `_call_invokes_pip`, the orchestrator
  `scan_custom_node`, the supervisor side of `_run_dynamic_analysis`, and the
  queue-writing behavior of `_dynamic_import_worker`) is translated into
  executable Lean definitions below, keeping the source's names.
* Python standard-library facilities that the code calls but that are not part
  of this repository (`os.path`, `open`, `ast.parse`/`ast.walk`, the `re`
  regular-expression engine, the bandit linter, process spawning) are modelled
  as oracle parameters: functions supplied through an `Env`/`Regexes` record.
  Concrete instantiations used in counterexamples and witnesses are chosen to
  agree with what CPython actually does on the concrete inputs.
-/

/-- One finding: `{"severity": ..., "detail": ...}`.  Severities are the
strings the Python code uses (`"LOW"`, `"MEDIUM"`, `"HIGH"`; bandit may in
principle supply other uppercased strings, so severity is a plain string). -/
structure Issue where
  severity : String
  detail : String
deriving DecidableEq

/-- The dictionary returned by `scan_custom_node`. -/
structure ScanResult where
  file : String
  issues : List Issue
  secure : Bool
deriving DecidableEq

/-- `RISKY_IMPORTS` (lines 23-31 of the source): module name to severity. -/
def RISKY_IMPORTS : List (String × String) :=
  [("os", "LOW"), ("subprocess", "MEDIUM"), ("socket", "MEDIUM"),
   ("winreg", "MEDIUM"), ("ctypes", "MEDIUM"), ("requests", "LOW"),
   ("urllib", "LOW")]

/-- `DANGEROUS_CALLS` (lines 33-40): fully qualified callee name to
(severity, message). -/
def DANGEROUS_CALLS : List (String × (String × String)) :=
  [("eval", ("HIGH", "Uses eval() for dynamic code execution.")),
   ("exec", ("HIGH", "Uses exec() for dynamic code execution.")),
   ("os.system", ("HIGH", "Uses os.system() to execute shell commands.")),
   ("subprocess.Popen", ("HIGH", "Uses subprocess.Popen() to spawn a process.")),
   ("subprocess.run", ("MEDIUM", "Uses subprocess.run() to execute a process.")),
   ("subprocess.call", ("MEDIUM", "Uses subprocess.call() to execute a process."))]

/-- `NETWORK_CALL_PREFIXES` (lines 42-50). -/
def NETWORK_CALL_TARGETS : List String :=
  ["requests.get", "requests.post", "requests.put", "requests.delete",
   "requests.request", "urllib.request.urlopen", "urllib.urlopen"]

/-- The set literal on line 173 of the source. -/
def PIP_CAPABLE_CALLS : List String :=
  ["subprocess.run", "subprocess.call", "subprocess.Popen", "os.system"]

/-- `DYNAMIC_TIMEOUT_SECONDS = 5` (line 14). -/
def DYNAMIC_TIMEOUT_SECONDS : Nat := 5

/-- Substring occurrence over character lists (needle assumed nonempty). -/
def containsSub (hay needle : List Char) : Bool :=
  match hay with
  | [] => false
  | _ :: rest => needle.isPrefixOf hay || containsSub rest needle

/-- Python's `needle in hay` substring test. -/
def pyContains (hay needle : String) : Bool :=
  needle == "" || containsSub hay.data needle.data

/-- Python's `str.startswith`. -/
def pyStartsWith (s pre : String) : Bool :=
  pre.data.isPrefixOf s.data

/-- Split a character list on a separator character (the pieces between
occurrences, like `str.split`). -/
def splitOnChar (c : Char) : List Char → List (List Char)
  | [] => [[]]
  | ch :: rest =>
      if ch == c then [] :: splitOnChar c rest
      else
        match splitOnChar c rest with
        | [] => [[ch]]
        | l :: ls => (ch :: l) :: ls

/-- Python's `name.split(".")`. -/
def pySplitDot (s : String) : List String :=
  (splitOnChar '.' s.data).map String.mk

/-- Python's `str.splitlines` restricted to `"\n"` separators (the scanner
reads files in text mode, so line breaks in `source` are `"\n"`): split on
newline and drop the trailing empty piece produced by a final newline. -/
def pySplitlines (s : String) : List String :=
  let parts := (splitOnChar '\n' s.data).map String.mk
  if parts.getLast? = some "" then parts.dropLast else parts

/-- A Python `ast.alias` node as used by the scanner: only `alias.name` is
ever read (`asname` is kept for shape fidelity). -/
structure PyAlias where
  name : String
  asname : Option String

/-- The fragment of Python's `ast` node language that
`_static_scan`/`_full_name`/`_extract_string_literals` inspect.  `otherE`
stands for every node kind the scanner does not look inside (`Module`,
`Expr`, `Subscript`, `BinOp`, `FormattedValue`, ...): the source returns
`""`/`[]` for all of them.  Keyword arguments are modelled by their value
expressions (`keyword.value` is never `None` in CPython ASTs, so the
`is not None` guard on line 249 is vacuous); dictionary keys keep their
`Option` because `None` keys (from `**` unpacking) do occur. -/
inductive Ast where
  | nameE (id : String)
  | attrE (value : Ast) (attr : String)
  | constantStr (s : String)
  | constantOther
  | joinedStr (values : List Ast)
  | listE (elts : List Ast)
  | tupleE (elts : List Ast)
  | setE (elts : List Ast)
  | dictE (keys : List (Option Ast)) (values : List Ast)
  | callE (func : Ast) (args : List Ast) (keywords : List Ast) (lineno : Nat)
  | importE (names : List PyAlias) (lineno : Nat)
  | importFromE (module : Option String) (names : List PyAlias) (lineno : Nat)
  | otherE

/-- `_full_name` (lines 207-215): follow an attribute chain down to a root
`Name`; an unresolvable root yields `""`, and an attribute over an
unresolvable base falls back to the bare attribute name (`if base:`). -/
def _full_name : Ast → String
  | .nameE id => id
  | .attrE value attr =>
      let base := _full_name value
      if base ≠ "" then base ++ "." ++ attr else attr
  | _ => ""

/-- The loop inside the `JoinedStr` branch of `_extract_string_literals`
(lines 232-235): collect only the directly embedded string constants. -/
def joinedStrLits : List Ast → List String
  | [] => []
  | .constantStr s :: rest => s :: joinedStrLits rest
  | _ :: rest => joinedStrLits rest

mutual

/-- `_extract_string_literals` (lines 228-251): every string literal
reachable through constants, f-string fragments, sequence/set/dict displays
and nested calls. -/
def _extract_string_literals : Ast → List String
  | .constantStr s => [s]
  | .joinedStr values => joinedStrLits values
  | .listE elts => extractLitsList elts
  | .tupleE elts => extractLitsList elts
  | .setE elts => extractLitsList elts
  | .dictE keys values => extractLitsPairs keys values
  | .callE _ args keywords _ => extractLitsList args ++ extractLitsList keywords
  | _ => []
termination_by a => sizeOf a

/-- Literal extraction mapped over a list of child nodes. -/
def extractLitsList : List Ast → List String
  | [] => []
  | a :: rest => _extract_string_literals a ++ extractLitsList rest
termination_by l => sizeOf l

/-- The `zip(node.keys, node.values)` loop of the `Dict` branch (lines
239-244): key literals (when the key is not `None`) before value literals,
stopping at the shorter list exactly as `zip` does. -/
def extractLitsPairs : List (Option Ast) → List Ast → List String
  | some k :: ks, v :: vs =>
      _extract_string_literals k ++ _extract_string_literals v ++ extractLitsPairs ks vs
  | none :: ks, v :: vs => _extract_string_literals v ++ extractLitsPairs ks vs
  | _, _ => []
termination_by ks vs => sizeOf ks + sizeOf vs

end

/-- `_extract_urls_from_call` (lines 218-225): keep each extracted literal in
which the URL regex or, failing that, the IPv4 regex finds a match (the
`if`/`elif` appends the whole literal at most once, i.e. it filters). -/
def _extract_urls_from_call (urlSearch ipSearch : String → Option String)
    (node : Ast) : List String :=
  (_extract_string_literals node).filter
    (fun v => (urlSearch v).isSome || (ipSearch v).isSome)

/-- `_call_invokes_pip` (lines 254-260). -/
def _call_invokes_pip (pipArgsMatch : String → Bool) (node : Ast) : Bool :=
  let values := (_extract_string_literals node).map String.toLower
  if pyContains (String.intercalate " " values) "pip install" then true
  else if values.any pipArgsMatch && values.contains "install" then true
  else false

/-- Oracle bundle for the compiled `re` patterns of lines 16-21 and the
fixed pattern tables of lines 52-65.  Each field is the observable behavior
of one pattern: `search`-style fields return the matched text (group 0, or
group 1 for the obfuscated-variable pattern) when the pattern matches the
given string.  Concrete instantiations in this file only use values that the
real patterns produce on the concrete inputs involved. -/
structure Regexes where
  urlSearch : String → Option String
  ipSearch : String → Option String
  base64Search : String → Bool
  obfuscatedVarSearch : String → Option String
  pipInstallSearch : String → Bool
  pipArgsMatch : String → Bool
  discordSearch : String → Bool
  stratumSearch : String → Bool
  miningPoolSearch : String → Bool
  evalLineSearch : String → Bool
  execLineSearch : String → Bool
  osSystemLineSearch : String → Bool
  popenLineSearch : String → Bool
  runCallLineSearch : String → Bool

/-- The fixed `(line N)` suffix appended by `add_issue` (line 136). -/
def lineSuffix (n : Nat) : String := " (line " ++ toString n ++ ")"

/-- The mutable state of one `_static_scan` run: the `seen` set of
`(severity, detail)` keys (a Python `set`, modelled as a list with
membership) and the `issues` list, in emission order. -/
structure ScanState where
  seen : List (String × String)
  issues : List Issue
deriving DecidableEq

/-- The reassignment `detail = f"{detail} (line {line})"` guarded by
`if line is not None` (lines 135-136). -/
def renderDetail (detail : String) (line : Option Nat) : String :=
  match line with
  | some n => detail ++ lineSuffix n
  | none => detail

/-- `add_issue` (lines 134-141): append the line suffix when a line is
given, then drop the issue if its `(severity, detail)` key was already
seen, otherwise record key and issue. -/
def add_issue (st : ScanState) (severity detail : String) (line : Option Nat) :
    ScanState :=
  if (severity, renderDetail detail line) ∈ st.seen then st
  else ⟨(severity, renderDetail detail line) :: st.seen,
        st.issues ++ [⟨severity, renderDetail detail line⟩]⟩

/-- The findings of the `Import`/`ImportFrom` alias loop (lines 151-156):
one `(severity, detail)` pair per alias whose top-level module name is in
`RISKY_IMPORTS`. -/
def importFindings (names : List PyAlias) : List (String × String) :=
  names.filterMap (fun a =>
    let module := (pySplitDot a.name).headD ""
    (RISKY_IMPORTS.lookup module).map
      (fun sev => (sev, "Imports risky module '" ++ module ++ "'.")))

/-- The findings of the `ast.Call` branch (lines 163-175), in emission
order: dangerous-call match, then the network-call issue followed by one
issue per extracted URL/IP literal, then the runtime-pip-install issue. -/
def callFindings (rx : Regexes) (func : Ast) (args : List Ast)
    (keywords : List Ast) (lineno : Nat) : List (String × String) :=
  let call_name := _full_name func
  let node := Ast.callE func args keywords lineno
  (match DANGEROUS_CALLS.lookup call_name with
   | some (sev, msg) => [(sev, msg)]
   | none => []) ++
  (if NETWORK_CALL_TARGETS.contains call_name || pyStartsWith call_name "urllib."
   then ("MEDIUM", "Network call via '" ++ call_name ++ "'.") ::
     (_extract_urls_from_call rx.urlSearch rx.ipSearch node).map
       (fun url => ("MEDIUM", "Network call target appears in code: " ++ url ++ "."))
   else []) ++
  (if PIP_CAPABLE_CALLS.contains call_name && _call_invokes_pip rx.pipArgsMatch node
   then [("HIGH", "Invokes pip install at runtime.")]
   else [])

/-- The `(severity, detail)` pairs one walked node contributes, in the order
the `for node in ast.walk(tree)` body emits them (lines 150-175).  The
`ImportFrom` branch mirrors the `if node.module:` truthiness test. -/
def nodeFindings (rx : Regexes) : Ast → List (String × String)
  | .importE names _ => importFindings names
  | .importFromE module _ _ =>
      match module with
      | some m =>
          if m = "" then []
          else importFindings [⟨m, none⟩]
      | none => []
  | .callE func args keywords lineno => callFindings rx func args keywords lineno
  | _ => []

/-- The `lineno` attribute read by the walk branches; statement and call
nodes always carry one in CPython. -/
def nodeLineno : Ast → Nat
  | .callE _ _ _ n => n
  | .importE _ n => n
  | .importFromE _ _ n => n
  | _ => 0

/-- One iteration of the `ast.walk` loop: emit the node's findings through
`add_issue`, all carrying the node's line number. -/
def processNode (rx : Regexes) (st : ScanState) (node : Ast) : ScanState :=
  (nodeFindings rx node).foldl
    (fun s f => add_issue s f.1 f.2 (some (nodeLineno node))) st

/-- The `(severity, detail)` pairs one raw source line contributes, in the
order the line loop emits them (lines 177-202): pip-install string, base64
blob, obfuscated variable name, the three `MALICIOUS_INDICATORS`, hard-coded
URL then IP on lines mentioning a network library, and the five
`DANGEROUS_LINE_PATTERNS` in insertion order. -/
def lineFindings (rx : Regexes) (line : String) : List (String × String) :=
  (if rx.pipInstallSearch line
   then [("HIGH", "Contains 'pip install' invocation string.")] else []) ++
  (if rx.base64Search line
   then [("MEDIUM", "Large base64-like string found (possible obfuscation).")] else []) ++
  (match rx.obfuscatedVarSearch line with
   | some g =>
       if g.any Char.isDigit
       then [("LOW", "Unusually long variable name with digits (possible obfuscation).")]
       else []
   | none => []) ++
  (if rx.discordSearch line then [("HIGH", "Discord webhook URL found.")] else []) ++
  (if rx.stratumSearch line
   then [("HIGH", "Possible mining pool (stratum) URL found.")] else []) ++
  (if rx.miningPoolSearch line
   then [("HIGH", "Known crypto-mining pool reference found.")] else []) ++
  (if pyContains line "requests." || pyContains line "urllib" then
     (match rx.urlSearch line with
      | some u => [("MEDIUM", "Hard-coded URL in network call: " ++ u ++ ".")]
      | none => []) ++
     (match rx.ipSearch line with
      | some ip => [("MEDIUM", "Hard-coded IP in network call: " ++ ip ++ ".")]
      | none => [])
   else []) ++
  (if rx.evalLineSearch line
   then [("HIGH", "Uses eval() for dynamic code execution.")] else []) ++
  (if rx.execLineSearch line
   then [("HIGH", "Uses exec() for dynamic code execution.")] else []) ++
  (if rx.osSystemLineSearch line
   then [("HIGH", "Uses os.system() to execute shell commands.")] else []) ++
  (if rx.popenLineSearch line
   then [("HIGH", "Uses subprocess.Popen() to spawn a process.")] else []) ++
  (if rx.runCallLineSearch line
   then [("MEDIUM", "Uses subprocess to execute a process.")] else [])

/-- One iteration of `for idx, line in enumerate(lines, start=1)`. -/
def scanLine (rx : Regexes) (st : ScanState) (idx : Nat) (line : String) :
    ScanState :=
  (lineFindings rx line).foldl (fun s f => add_issue s f.1 f.2 (some idx)) st

/-- The 1-indexed line loop of `_static_scan` (lines 177-202). -/
def scanLines (rx : Regexes) : ScanState → Nat → List String → ScanState
  | st, _, [] => st
  | st, idx, l :: ls => scanLines rx (scanLine rx st idx l) (idx + 1) ls

/-- The result of `ast.parse` when it raises: `SyntaxError.msg` and
`SyntaxError.lineno` (always an integer for parser errors). -/
structure SyntaxErr where
  msg : String
  lineno : Nat

/-- `_static_scan` (lines 129-204).  `parsed` is what the external call
`ast.parse(source)` produced, flattened by `ast.walk` into the BFS node
sequence the walk loop iterates over; on a `SyntaxError` one MEDIUM issue is
recorded and the walk is skipped, and the line loop runs in either case. -/
def _static_scan (rx : Regexes) (parsed : Except SyntaxErr (List Ast))
    (source : String) : List Issue :=
  let st0 : ScanState := ⟨[], []⟩
  let st1 := match parsed with
    | .error e =>
        add_issue st0 "MEDIUM" ("Failed to parse Python AST: " ++ e.msg) (some e.lineno)
    | .ok nodes => nodes.foldl (processNode rx) st0
  (scanLines rx st1 1 (pySplitlines source)).issues

/-- One interception performed inside `_dynamic_import_worker`
(lines 291-399).  Each constructor is one interceptor call site; the string
fields carry the `repr` text Python interpolates into the f-string
(`{args}`, `{kwargs}`, `{target}`, ...).  `blocked_call` is instantiated in
the source only for `os.system` and `socket.create_connection`, both with
severity `"HIGH"`, so those two sites are separate constructors. -/
inductive SandboxEvent where
  | osSystem (argsRepr kwargsRepr : String)
  | popen (argsRepr kwargsRepr : String)
  | subprocessRun (argsRepr kwargsRepr : String)
  | subprocessCall (argsRepr kwargsRepr : String)
  | createConnection (argsRepr kwargsRepr : String)
  | networkCall (name targetRepr : String)
  | sessionRequest (method url : String)
  | socketCreate (argsRepr kwargsRepr : String)
  | socketConnect (argsRepr kwargsRepr : String)
  | socketSend (argsRepr kwargsRepr : String)
  | socketRecv (argsRepr kwargsRepr : String)

/-- The queue entry each interceptor `log`s (the f-strings of lines
312-373).  `networkCall` covers `blocked_network` (used for
`urllib.request.urlopen` and the `requests` stub functions). -/
def logEntry : SandboxEvent → Issue
  | .osSystem a k =>
      ⟨"HIGH", "Runtime call blocked: os.system args=" ++ a ++ " kwargs=" ++ k⟩
  | .popen a k =>
      ⟨"HIGH", "Runtime call blocked: subprocess.Popen args=" ++ a ++ " kwargs=" ++ k⟩
  | .subprocessRun a k =>
      ⟨"HIGH", "Runtime call blocked: subprocess.run args=" ++ a ++ " kwargs=" ++ k⟩
  | .subprocessCall a k =>
      ⟨"HIGH", "Runtime call blocked: subprocess.call args=" ++ a ++ " kwargs=" ++ k⟩
  | .createConnection a k =>
      ⟨"HIGH", "Runtime call blocked: socket.create_connection args=" ++ a ++ " kwargs=" ++ k⟩
  | .networkCall name t =>
      ⟨"HIGH", "Runtime network call blocked: " ++ name ++ " target=" ++ t⟩
  | .sessionRequest m url =>
      ⟨"HIGH", "Runtime network call blocked: requests.Session." ++ m ++ " target=" ++ url⟩
  | .socketCreate a k =>
      ⟨"MEDIUM", "Runtime socket created args=" ++ a ++ " kwargs=" ++ k⟩
  | .socketConnect a k =>
      ⟨"HIGH", "Runtime socket connect blocked args=" ++ a ++ " kwargs=" ++ k⟩
  | .socketSend a k =>
      ⟨"MEDIUM", "Runtime socket send blocked args=" ++ a ++ " kwargs=" ++ k⟩
  | .socketRecv a k =>
      ⟨"MEDIUM", "Runtime socket recv blocked args=" ++ a ++ " kwargs=" ++ k⟩

/-- How `spec.loader.exec_module(module)` ended inside the worker: normal
completion, or an exception whose class name and message the worker reports
(line 417-418). -/
inductive ExecOutcome where
  | normal
  | exception (ty msg : String)

/-- What `_dynamic_import_worker` puts on the queue, as a function of the
worker-run observables: whether `spec_from_file_location` succeeded
(lines 403-406), the sequence of interceptor invocations the target's
module-level code triggered during `exec_module`, and how `exec_module`
ended (lines 415-418). -/
def _dynamic_import_worker (specOk : Bool) (events : List SandboxEvent)
    (outcome : ExecOutcome) : List Issue :=
  if !specOk then
    [⟨"MEDIUM", "Dynamic analysis failed: unable to load module spec."⟩]
  else
    events.map logEntry ++
    match outcome with
    | .normal => []
    | .exception ty msg =>
        [⟨"LOW", "Dynamic import raised " ++ ty ++ ": " ++ msg⟩]

/-- The observables of one sandbox run, i.e. of one
`_run_dynamic_analysis` call: the worker-run data above, whether the child
process was still alive when `process.join(DYNAMIC_TIMEOUT_SECONDS)`
returned (line 272), and how many queue entries had already been enqueued
when a timed-out child was terminated (`drainCut`; when the child finished
on its own the drain sees the whole queue). -/
structure DynBehavior where
  specOk : Bool
  events : List SandboxEvent
  outcome : ExecOutcome
  timedOut : Bool
  drainCut : Nat

/-- The full queue the worker wrote (or would have written). -/
def workerQueue (b : DynBehavior) : List Issue :=
  _dynamic_import_worker b.specOk b.events b.outcome

/-- The entries the non-blocking drain loop (lines 280-286) retrieves: on a
timeout only the prefix that was enqueued before termination, otherwise the
whole queue, in FIFO order. -/
def drainedEntries (b : DynBehavior) : List Issue :=
  if b.timedOut then (workerQueue b).take b.drainCut else workerQueue b

/-- `issues.append({"severity": "HIGH", ...})` of lines 275-278. -/
def timeoutIssue : Issue :=
  ⟨"HIGH", "Dynamic analysis timed out during module import."⟩

/-- `_run_dynamic_analysis` (lines 263-288): a HIGH timeout issue when the
child was still alive after the 5-second join, followed by the drained
queue entries. -/
def _run_dynamic_analysis (b : DynBehavior) : List Issue :=
  (if b.timedOut then [timeoutIssue] else []) ++ drainedEntries b

/-- The external world one `scan_custom_node` call runs against:
`os.path.abspath`, `os.path.isfile`, reading the file (`.error` is the
`OSError` message of lines 82-87), the issues `_run_bandit` returns
(lines 102-126, entirely third-party), the `ast.parse`+`ast.walk` result on
a given source text, the compiled regex patterns, and the sandbox-run
observables as a function of the scanned path and of the randomized module
name `scan_target_<uuid>` the worker would use (line 402). -/
structure Env where
  abspath : String → String
  isFile : String → Bool
  readFile : String → Except String String
  bandit : String → List Issue
  parse : String → Except SyntaxErr (List Ast)
  rx : Regexes
  dyn : String → String → DynBehavior

/-- The three `issues.extend(...)` calls of lines 89-91, in source order:
bandit first, then the static scan, then the dynamic analysis. -/
def scanIssues (env : Env) (abs_path source moduleName : String) : List Issue :=
  env.bandit abs_path ++
  _static_scan env.rx (env.parse source) source ++
  _run_dynamic_analysis (env.dyn abs_path moduleName)

/-- `secure = not any(issue["severity"] in {"HIGH", "MEDIUM"} ...)`
(line 93). -/
def computeSecure (issues : List Issue) : Bool :=
  !(issues.any fun issue => issue.severity = "HIGH" || issue.severity = "MEDIUM")

/-- `scan_custom_node` (lines 68-99).  `moduleName` is the randomized
module identity drawn inside the worker for this run; it reaches only the
sandbox (`env.dyn`). -/
def scan_custom_node (env : Env) (node_path : String) (moduleName : String) :
    ScanResult :=
  if !env.isFile (env.abspath node_path) then
    ⟨env.abspath node_path,
     [⟨"HIGH", "Node path does not exist or is not a file."⟩], false⟩
  else
    match env.readFile (env.abspath node_path) with
    | .error exc =>
        ⟨env.abspath node_path,
         [⟨"HIGH", "Failed to read file: " ++ exc⟩], false⟩
    | .ok source =>
        ⟨env.abspath node_path,
         scanIssues env (env.abspath node_path) source moduleName,
         computeSecure (scanIssues env (env.abspath node_path) source moduleName)⟩

/-- Every issue in the state carries the `(line N)` suffix. -/
def SuffixInv (st : ScanState) : Prop :=
  ∀ i ∈ st.issues, ∃ d n, i.detail = d ++ lineSuffix n

/-- The deduplication key of line 137. -/
def issueKey (i : Issue) : String × String := (i.severity, i.detail)

/-- The dedup invariant of `_static_scan`: emitted keys are pairwise
distinct and all recorded in `seen`. -/
def KeyInv (st : ScanState) : Prop :=
  (st.issues.map issueKey).Nodup ∧ ∀ k ∈ st.issues.map issueKey, k ∈ st.seen

/-- The all-negative regex oracle: what the compiled patterns of lines
16-21 and 52-65 return on strings none of them match.  It is the faithful
behavior of those patterns on every line of the concrete sources used
below (`"import socket"`, `"x = 1"`, `"def"`): none of them contains a
pip-install string, a 200-character base64 run, a 30-character identifier,
an indicator substring, a URL/IP, or an `eval`/`exec`/`os.system`/
`subprocess` call text. -/
def rxNone : Regexes :=
  ⟨fun _ => none, fun _ => none, fun _ => false, fun _ => none, fun _ => false,
   fun _ => false, fun _ => false, fun _ => false, fun _ => false, fun _ => false,
   fun _ => false, fun _ => false, fun _ => false, fun _ => false⟩

/-- A sandbox run in which the child loaded its module spec, triggered no
interceptor, finished normally within the budget, and the drain read the
whole (empty) queue — the behavior of the sandbox on a harmless script. -/
def dynQuiet : DynBehavior := ⟨true, [], .normal, false, 0⟩

/-- An environment whose path never resolves to an existing regular file
(the engines' oracles are arbitrary; they are never consulted). -/
def envMissingFile : Env :=
  ⟨id, fun _ => false, fun _ => .ok "", fun _ => [], fun _ => .ok [], rxNone,
   fun _ _ => dynQuiet⟩

/-- The environment of scanning a file whose content is `"import socket"`
on a host without bandit installed: `ast.walk` yields the `Module` node
then the single `Import` node (the `alias` child nodes carry no
scan-relevant fields), the sandbox import of `socket` triggers no
interceptor, and `_run_bandit` returns its import-failure diagnostic. -/
def envImportSocket : Env :=
  ⟨id, fun _ => true, fun _ => .ok "import socket",
   fun _ => [⟨"LOW", "Bandit scan skipped: No module named 'bandit'"⟩],
   fun _ => .ok [.otherE, .importE [⟨"socket", none⟩] 1], rxNone,
   fun _ _ => dynQuiet⟩

/-- An environment for a harmless one-line script `"x = 1"`, with a
sandbox behavior that (faithfully: the script never observes its module
name) does not depend on the randomized module identity. -/
def envAssignOne : Env :=
  ⟨id, fun _ => true, fun _ => .ok "x = 1", fun _ => [],
   fun _ => .ok [.otherE, .otherE, .nameE "x", .constantOther], rxNone,
   fun _ _ => dynQuiet⟩

/-- The spec-side notion used by claim C6: an attribute-access chain that
can be "followed back to a root identifier".  This is a formalisation of
the spec's words, for comparison with what `_full_name` actually does. -/
def chainHasRootName : Ast → Bool
  | .nameE _ => true
  | .attrE value _ => chainHasRootName value
  | _ => false

/-- A property of scan states that survives every fold step survives the
fold. -/
lemma foldl_pres {α σ : Type} {P : σ → Prop} {f : σ → α → σ}
    (hf : ∀ s a, P s → P (f s a)) :
    ∀ (l : List α) (s : σ), P s → P (l.foldl f s)
  | [], _, h => h
  | a :: l, s, h => foldl_pres hf l (f s a) (hf s a h)

lemma suffixInv_add_issue {st : ScanState} (sev d : String) (n : Nat)
    (h : SuffixInv st) : SuffixInv (add_issue st sev d (some n)) := by
  unfold add_issue
  split
  · exact h
  · intro i hi
    rcases List.mem_append.mp hi with hold | hnew
    · exact h i hold
    · rcases List.mem_singleton.mp hnew with rfl
      exact ⟨d, n, rfl⟩

lemma suffixInv_processNode (rx : Regexes) {st : ScanState} (node : Ast)
    (h : SuffixInv st) : SuffixInv (processNode rx st node) := by
  unfold processNode
  exact @foldl_pres _ _ SuffixInv
    (fun s f => add_issue s f.1 f.2 (some (nodeLineno node)))
    (fun s f hs => suffixInv_add_issue f.1 f.2 _ hs) (nodeFindings rx node) st h

set_option maxHeartbeats 1000000 in
lemma suffixInv_scanLine (rx : Regexes) {st : ScanState} (idx : Nat)
    (line : String) (h : SuffixInv st) : SuffixInv (scanLine rx st idx line) := by
  unfold scanLine
  exact @foldl_pres _ _ SuffixInv (fun s f => add_issue s f.1 f.2 (some idx))
    (fun s f hs => suffixInv_add_issue f.1 f.2 idx hs) (lineFindings rx line) st h

lemma suffixInv_scanLines (rx : Regexes) :
    ∀ (ls : List String) (st : ScanState) (idx : Nat), SuffixInv st →
      SuffixInv (scanLines rx st idx ls)
  | [], _, _, h => h
  | l :: ls, st, idx, h =>
      suffixInv_scanLines rx ls (scanLine rx st idx l) (idx + 1)
        (suffixInv_scanLine rx idx l h)

lemma keyInv_add_issue {st : ScanState} (sev d : String) (ln : Option Nat)
    (h : KeyInv st) : KeyInv (add_issue st sev d ln) := by
  unfold add_issue
  split
  · exact h
  · rename_i hnot
    obtain ⟨hnd, hsub⟩ := h
    constructor
    · rw [List.map_append, List.nodup_append]
      refine ⟨hnd, by simp [issueKey], ?_⟩
      intro k hk hk1
      simp only [List.map_cons, List.map_nil, List.mem_singleton, issueKey] at hk1
      rw [hk1] at hk
      exact hnot (hsub _ hk)
    · intro k hk
      rw [List.map_append] at hk
      rcases List.mem_append.mp hk with hold | hnew
      · exact List.mem_cons_of_mem _ (hsub _ hold)
      · simp only [List.map_cons, List.map_nil, List.mem_singleton, issueKey] at hnew
        rw [hnew]
        exact List.mem_cons_self _ _

lemma keyInv_processNode (rx : Regexes) {st : ScanState} (node : Ast)
    (h : KeyInv st) : KeyInv (processNode rx st node) := by
  unfold processNode
  exact @foldl_pres _ _ KeyInv
    (fun s f => add_issue s f.1 f.2 (some (nodeLineno node)))
    (fun s f hs => keyInv_add_issue f.1 f.2 _ hs) (nodeFindings rx node) st h

set_option maxHeartbeats 1000000 in
lemma keyInv_scanLine (rx : Regexes) {st : ScanState} (idx : Nat)
    (line : String) (h : KeyInv st) : KeyInv (scanLine rx st idx line) := by
  unfold scanLine
  exact @foldl_pres _ _ KeyInv (fun s f => add_issue s f.1 f.2 (some idx))
    (fun s f hs => keyInv_add_issue f.1 f.2 _ hs) (lineFindings rx line) st h

lemma keyInv_scanLines (rx : Regexes) :
    ∀ (ls : List String) (st : ScanState) (idx : Nat), KeyInv st →
      KeyInv (scanLines rx st idx ls)
  | [], _, _, h => h
  | l :: ls, st, idx, h =>
      keyInv_scanLines rx ls (scanLine rx st idx l) (idx + 1)
        (keyInv_scanLine rx idx l h)

/-- The issues list `_static_scan` returns never holds two identical
entries: the `seen` set collapses repeated `(severity, detail)` keys. -/
lemma static_scan_nodup (rx : Regexes) (parsed : Except SyntaxErr (List Ast))
    (source : String) : (_static_scan rx parsed source).Nodup := by
  have h0 : KeyInv ⟨[], []⟩ := ⟨List.nodup_nil, by simp⟩
  have h1 : KeyInv (match parsed with
      | .error e =>
          add_issue ⟨[], []⟩ "MEDIUM" ("Failed to parse Python AST: " ++ e.msg)
            (some e.lineno)
      | .ok nodes => nodes.foldl (processNode rx) ⟨[], []⟩) := by
    cases parsed with
    | error e => exact keyInv_add_issue _ _ _ h0
    | ok nodes =>
        exact @foldl_pres _ _ KeyInv (processNode rx)
          (fun s a hs => keyInv_processNode rx a hs) nodes _ h0
  have h2 := keyInv_scanLines rx (pySplitlines source) _ 1 h1
  exact List.Nodup.of_map issueKey h2.1

lemma add_issue_issues_app (st : ScanState) (sev d : String) (ln : Option Nat) :
    ∃ t, (add_issue st sev d ln).issues = st.issues ++ t := by
  unfold add_issue
  split
  · exact ⟨[], (List.append_nil _).symm⟩
  · exact ⟨_, rfl⟩

lemma foldl_issues_app {α : Type} (g : ScanState → α → ScanState)
    (hg : ∀ s a, ∃ t, (g s a).issues = s.issues ++ t) :
    ∀ (l : List α) (s : ScanState), ∃ t, (l.foldl g s).issues = s.issues ++ t
  | [], _ => ⟨[], (List.append_nil _).symm⟩
  | a :: l, s => by
      obtain ⟨t1, h1⟩ := hg s a
      obtain ⟨t2, h2⟩ := foldl_issues_app g hg l (g s a)
      exact ⟨t1 ++ t2, by rw [List.foldl_cons, h2, h1, List.append_assoc]⟩

set_option maxHeartbeats 1000000 in
lemma scanLine_issues_app (rx : Regexes) (st : ScanState) (idx : Nat)
    (line : String) : ∃ t, (scanLine rx st idx line).issues = st.issues ++ t := by
  unfold scanLine
  exact @foldl_issues_app (String × String)
    (fun s f => add_issue s f.1 f.2 (some idx))
    (fun s f => add_issue_issues_app s f.1 f.2 (some idx)) (lineFindings rx line) st

lemma scanLines_issues_app (rx : Regexes) :
    ∀ (ls : List String) (st : ScanState) (idx : Nat),
      ∃ t, (scanLines rx st idx ls).issues = st.issues ++ t
  | [], _, _ => ⟨[], (List.append_nil _).symm⟩
  | l :: ls, st, idx => by
      obtain ⟨t1, h1⟩ := scanLine_issues_app rx st idx l
      obtain ⟨t2, h2⟩ := scanLines_issues_app rx ls (scanLine rx st idx l) (idx + 1)
      exact ⟨t1 ++ t2, by
        show (scanLines rx (scanLine rx st idx l) (idx + 1) ls).issues = _
        rw [h2, h1, List.append_assoc]⟩

lemma head_data_append (p t : String) (c : Char) (h : p.data.head? = some c) :
    (p ++ t).data.head? = some c := by
  rw [String.data_append]
  cases hp : p.data with
  | nil => rw [hp] at h; cases h
  | cons x xs =>
      rw [hp] at h
      simp only [List.head?] at h
      simp [h]

/-- Every queue entry an interceptor writes has a detail string beginning
with `"Runtime"`. -/
lemma logEntry_detail_headR (e : SandboxEvent) :
    (logEntry e).detail.data.head? = some 'R' := by
  cases e <;> simp only [logEntry] <;> (repeat' apply head_data_append) <;> decide

lemma logEntry_ne_timeout (e : SandboxEvent) : logEntry e ≠ timeoutIssue := by
  intro h
  have hd : (logEntry e).detail = timeoutIssue.detail := by rw [h]
  have hr := logEntry_detail_headR e
  rw [hd] at hr
  exact absurd hr (by decide)

/-- The supervisor's timeout issue can never already be on the queue: the
worker only enqueues interceptor records (details starting `"Runtime"`),
the spec-load failure (MEDIUM) and the import-exception record (LOW). -/
lemma timeout_not_in_worker (specOk : Bool) (events : List SandboxEvent)
    (outcome : ExecOutcome) :
    timeoutIssue ∉ _dynamic_import_worker specOk events outcome := by
  unfold _dynamic_import_worker
  split
  · decide
  · intro hmem
    rcases List.mem_append.mp hmem with hmap | hrest
    · rcases List.mem_map.mp hmap with ⟨e, _, he⟩
      exact logEntry_ne_timeout e he
    · cases outcome with
      | normal => cases hrest
      | exception ty msg =>
          have h := List.mem_singleton.mp hrest
          have h2 : timeoutIssue.severity = "LOW" := congrArg Issue.severity h
          exact absurd h2 (by decide)

/-- C1: for every returned `ScanResult` of `scan_custom_node`, `secure` is
`true` iff no issue in `issues` has severity `"MEDIUM"` or `"HIGH"` —
both early-return results carry a HIGH issue together with
`secure = false`, and the main path computes `secure` as exactly this
predicate over the concatenated issues (source lines 72-99). -/
theorem scan_secure_iff_no_medium_high (env : Env) (p m : String) :
    (scan_custom_node env p m).secure = true ↔
      ∀ i ∈ (scan_custom_node env p m).issues,
        i.severity ≠ "MEDIUM" ∧ i.severity ≠ "HIGH" := by
  unfold scan_custom_node
  split
  · simp
  · split
    · simp
    · show computeSecure _ = true ↔ _
      unfold computeSecure
      simp only [Bool.not_eq_true', List.any_eq_false, Bool.or_eq_true,
        decide_eq_true_eq, not_or]
      exact ⟨fun h i hi => ⟨(h i hi).2, (h i hi).1⟩,
             fun h i hi => ⟨(h i hi).2, (h i hi).1⟩⟩

/-- C2: when the input path does not resolve to an existing regular file,
`scan_custom_node` returns the resolved absolute path, a single HIGH
issue, and `secure = false` — and, since the returned record is the same
for every choice of the engine oracles in `env`, no engine is consulted
(source lines 72-77). -/
theorem scan_missing_file (env : Env) (p m : String)
    (h : env.isFile (env.abspath p) = false) :
    scan_custom_node env p m =
      ⟨env.abspath p,
       [⟨"HIGH", "Node path does not exist or is not a file."⟩], false⟩ := by
  unfold scan_custom_node
  rw [h]
  rfl

/-- Witness for C2 at a concrete environment. -/
theorem scan_missing_file_witness :
    envMissingFile.isFile (envMissingFile.abspath "ghost.py") = false ∧
    scan_custom_node envMissingFile "ghost.py" "scan_target_a" =
      ⟨"ghost.py",
       [⟨"HIGH", "Node path does not exist or is not a file."⟩], false⟩ :=
  ⟨rfl, scan_missing_file envMissingFile "ghost.py" "scan_target_a" rfl⟩

/-- C3: when the sandboxed child is still alive at the end of the fixed
5-second `join`, `_run_dynamic_analysis` terminates it and records exactly
one HIGH timeout issue, and every queue entry that was already enqueued
before termination (the drained prefix) still appears in the returned
issue list (source lines 263-288). -/
theorem dynamic_timeout_behavior (specOk : Bool) (events : List SandboxEvent)
    (outcome : ExecOutcome) (drainCut : Nat) :
    DYNAMIC_TIMEOUT_SECONDS = 5 ∧
    _run_dynamic_analysis ⟨specOk, events, outcome, true, drainCut⟩ =
      timeoutIssue :: drainedEntries ⟨specOk, events, outcome, true, drainCut⟩ ∧
    (_run_dynamic_analysis ⟨specOk, events, outcome, true, drainCut⟩).count
      timeoutIssue = 1 ∧
    ∀ i ∈ drainedEntries ⟨specOk, events, outcome, true, drainCut⟩,
      i ∈ _run_dynamic_analysis ⟨specOk, events, outcome, true, drainCut⟩ := by
  refine ⟨rfl, rfl, ?_, ?_⟩
  · show (timeoutIssue :: drainedEntries _).count timeoutIssue = 1
    have hnot : timeoutIssue ∉
        drainedEntries ⟨specOk, events, outcome, true, drainCut⟩ := by
      intro hmem
      have hmem' : timeoutIssue ∈
          (workerQueue ⟨specOk, events, outcome, true, drainCut⟩).take drainCut :=
        hmem
      exact timeout_not_in_worker specOk events outcome
        (List.take_subset _ _ hmem')
    rw [List.count_cons_self, List.count_eq_zero.mpr hnot]
  · intro i hi
    show i ∈ timeoutIssue :: drainedEntries _
    exact List.mem_cons_of_mem _ hi

/-- Counterexample to C4 as stated: on the concrete environment of
scanning `"import socket"`, the issues of the result start with the bandit
(linter-adapter) issue and only then the static-engine issue — the claimed
order (static engine first, then linter, then sandbox) does not match,
because lines 89-91 of the source extend with `_run_bandit` first. -/
theorem scan_order_counterexample :
    (scan_custom_node envImportSocket "node.py" "scan_target_a").issues =
      [⟨"LOW", "Bandit scan skipped: No module named 'bandit'"⟩,
       ⟨"MEDIUM", "Imports risky module 'socket'. (line 1)"⟩] ∧
    (scan_custom_node envImportSocket "node.py" "scan_target_a").issues ≠
      _static_scan envImportSocket.rx (envImportSocket.parse "import socket")
          "import socket" ++
        envImportSocket.bandit "node.py" ++
        _run_dynamic_analysis (envImportSocket.dyn "node.py" "scan_target_a") := by
  decide

/-- C4 amended: for every successful scan the issues list is the
concatenation, in this fixed order, of the External Linter Adapter's
(bandit) issues first, then the Static Rule Engine's issues, then the
Sandbox Runtime's issues (source lines 89-91). -/
theorem scan_order_amended (env : Env) (p m source : String)
    (hfile : env.isFile (env.abspath p) = true)
    (hread : env.readFile (env.abspath p) = .ok source) :
    (scan_custom_node env p m).issues =
      env.bandit (env.abspath p) ++
      _static_scan env.rx (env.parse source) source ++
      _run_dynamic_analysis (env.dyn (env.abspath p) m) := by
  unfold scan_custom_node
  rw [hfile, hread]
  rfl

/-- Witness for the amended C4 at a concrete environment. -/
theorem scan_order_amended_witness :
    envImportSocket.isFile (envImportSocket.abspath "node.py") = true ∧
    envImportSocket.readFile (envImportSocket.abspath "node.py") =
      .ok "import socket" ∧
    (scan_custom_node envImportSocket "node.py" "scan_target_b").issues =
      envImportSocket.bandit (envImportSocket.abspath "node.py") ++
      _static_scan envImportSocket.rx (envImportSocket.parse "import socket")
        "import socket" ++
      _run_dynamic_analysis
        (envImportSocket.dyn (envImportSocket.abspath "node.py") "scan_target_b") :=
  ⟨rfl, rfl,
   scan_order_amended envImportSocket "node.py" "scan_target_b" "import socket"
     rfl rfl⟩

/-- Counterexample to C5 as stated: the dedup key includes the rendered
line suffix (line 136-137 of the source), so importing the risky module
`socket` on two different lines yields two MEDIUM issues naming it — not
one issue per distinct risky module. -/
theorem import_dedup_counterexample :
    _static_scan rxNone
        (.ok [.otherE, .importE [⟨"socket", none⟩] 1, .importE [⟨"socket", none⟩] 2])
        "import socket\nimport socket" =
      [⟨"MEDIUM", "Imports risky module 'socket'. (line 1)"⟩,
       ⟨"MEDIUM", "Imports risky module 'socket'. (line 2)"⟩] ∧
    ((_static_scan rxNone
        (.ok [.otherE, .importE [⟨"socket", none⟩] 1, .importE [⟨"socket", none⟩] 2])
        "import socket\nimport socket").filter
      (fun i => pyContains i.detail "'socket'")).length = 2 := by
  decide

/-- C5 amended: deduplication is per `(severity, detail)` key, and the
detail carries the line number, so the static scan emits at most one issue
per risky module and line; repeated imports of the same module on the same
line collapse to one issue. -/
theorem import_dedup_amended (rx : Regexes)
    (parsed : Except SyntaxErr (List Ast)) (source sev m : String) (n : Nat) :
    (_static_scan rx parsed source).count
      ⟨sev, ("Imports risky module '" ++ m ++ "'.") ++ lineSuffix n⟩ ≤ 1 :=
  List.nodup_iff_count_le_one.mp (static_scan_nodup rx parsed source) _

/-- Counterexample to C6 as stated: for the call `f().eval(x)` the callee's
attribute chain has no resolvable root identifier (its base is a call),
yet the static scan still emits the HIGH dangerous-call issue, because
`_full_name` falls back to the bare attribute name `"eval"` when the base
resolves to `""` (line 214 of the source). -/
theorem unresolved_root_counterexample :
    chainHasRootName (Ast.attrE (Ast.callE (Ast.nameE "f") [] [] 1) "eval") = false ∧
    (processNode rxNone ⟨[], []⟩
        (Ast.callE (Ast.attrE (Ast.callE (Ast.nameE "f") [] [] 1) "eval")
          [Ast.nameE "x"] [] 1)).issues =
      [⟨"HIGH", "Uses eval() for dynamic code execution. (line 1)"⟩] := by
  decide

/-- C6 amended: a call is skipped (no dangerous-call, network-call or
pip issue) exactly when its callee resolves to the empty name, i.e. the
callee node itself is neither an identifier nor an attribute access; an
attribute access over an unresolvable base instead resolves to its
attribute path alone and can still match single-name signatures. -/
theorem call_empty_name_skipped (rx : Regexes) (st : ScanState) (func : Ast)
    (args keywords : List Ast) (lineno : Nat) (h : _full_name func = "") :
    processNode rx st (.callE func args keywords lineno) = st := by
  have h1 : DANGEROUS_CALLS.lookup "" = none := by decide
  have h2 : NETWORK_CALL_TARGETS.contains "" = false := by decide
  have h3 : pyStartsWith "" "urllib." = false := by decide
  have h4 : PIP_CAPABLE_CALLS.contains "" = false := by decide
  simp only [processNode, nodeFindings, nodeLineno, callFindings, h]
  rw [h1, h2, h3, h4]
  simp

/-- Witness for the amended C6: a call whose callee is an inscrutable node
(empty resolved name) leaves the state untouched. -/
theorem call_empty_name_skipped_witness :
    _full_name Ast.otherE = "" ∧
    processNode rxNone ⟨[], []⟩ (Ast.callE Ast.otherE [] [] 3) = ⟨[], []⟩ :=
  ⟨rfl, call_empty_name_skipped rxNone ⟨[], []⟩ Ast.otherE [] [] 3 rfl⟩

/-- C7: on a parse failure `_static_scan` records one MEDIUM issue built
from the parser's message and line, skips the tree walk entirely (the
result is literally the line scan run from the one-issue state), and the
parse issue occurs exactly once in the output (source lines 143-147). -/
theorem parse_failure_behavior (rx : Regexes) (source msg : String)
    (lineno : Nat) :
    _static_scan rx (.error ⟨msg, lineno⟩) source =
      (scanLines rx
        (add_issue ⟨[], []⟩ "MEDIUM" ("Failed to parse Python AST: " ++ msg)
          (some lineno))
        1 (pySplitlines source)).issues ∧
    (_static_scan rx (.error ⟨msg, lineno⟩) source).count
      ⟨"MEDIUM", ("Failed to parse Python AST: " ++ msg) ++ lineSuffix lineno⟩
      = 1 := by
  constructor
  · rfl
  · have hst1 : (add_issue ⟨[], []⟩ "MEDIUM"
        ("Failed to parse Python AST: " ++ msg) (some lineno)).issues =
        [⟨"MEDIUM", ("Failed to parse Python AST: " ++ msg) ++ lineSuffix lineno⟩] := by
      simp [add_issue, renderDetail]
    obtain ⟨t, ht⟩ := scanLines_issues_app rx (pySplitlines source)
      (add_issue ⟨[], []⟩ "MEDIUM" ("Failed to parse Python AST: " ++ msg)
        (some lineno)) 1
    have hmem : (⟨"MEDIUM",
        ("Failed to parse Python AST: " ++ msg) ++ lineSuffix lineno⟩ : Issue) ∈
        _static_scan rx (.error ⟨msg, lineno⟩) source := by
      show _ ∈ (scanLines rx _ 1 (pySplitlines source)).issues
      rw [ht, hst1]
      exact List.mem_append_left _ (List.mem_singleton_self _)
    exact List.count_eq_one_of_mem
      (static_scan_nodup rx (.error ⟨msg, lineno⟩) source) hmem

/-- C8: when the target module's top-level code raises, the worker catches
it and enqueues exactly one LOW issue naming the exception class and
message, after the already-logged interception records; no interceptor
produces a LOW entry, so that LOW issue is unique (source lines 415-418). -/
theorem worker_exception_low (events : List SandboxEvent) (ty msg : String) :
    _dynamic_import_worker true events (.exception ty msg) =
      events.map logEntry ++
        [⟨"LOW", "Dynamic import raised " ++ ty ++ ": " ++ msg⟩] ∧
    ((_dynamic_import_worker true events (.exception ty msg)).filter
        (fun i => i.severity == "LOW")).length = 1 := by
  constructor
  · rfl
  · have heq : _dynamic_import_worker true events (.exception ty msg) =
        events.map logEntry ++
          [(⟨"LOW", "Dynamic import raised " ++ ty ++ ": " ++ msg⟩ : Issue)] := rfl
    rw [heq, List.filter_append]
    have hmap : (events.map logEntry).filter (fun i => i.severity == "LOW") = [] := by
      refine List.filter_eq_nil_iff.mpr ?_
      intro a ha
      rcases List.mem_map.mp ha with ⟨e, _, rfl⟩
      cases e <;> dsimp only [logEntry] <;> decide
    rw [hmap]
    rfl

/-- C9: two scans of the same unmodified file differ only in the
randomized sandbox module identity; whenever the sandbox-run observables
agree for the two identities (the spec's "deterministic given
deterministic arguments" caveat), the two `ScanResult`s are identical,
issues content and order included — no other part of the pipeline consults
the module name (source lines 68-99 and 263-288). -/
theorem scan_idempotent_given_trace (env : Env) (p n1 n2 : String)
    (h : env.dyn (env.abspath p) n1 = env.dyn (env.abspath p) n2) :
    scan_custom_node env p n1 = scan_custom_node env p n2 := by
  unfold scan_custom_node scanIssues
  rw [h]

/-- Witness for C9 at a concrete environment whose sandbox behavior is
independent of the module identity. -/
theorem scan_idempotent_witness :
    envAssignOne.dyn (envAssignOne.abspath "node.py") "scan_target_a" =
      envAssignOne.dyn (envAssignOne.abspath "node.py") "scan_target_b" ∧
    scan_custom_node envAssignOne "node.py" "scan_target_a" =
      scan_custom_node envAssignOne "node.py" "scan_target_b" :=
  ⟨rfl, scan_idempotent_given_trace envAssignOne "node.py" "scan_target_a"
    "scan_target_b" rfl⟩

/-- C10: every issue `_static_scan` emits — tree-walk pass, parse-failure
diagnostic, and line-scan pass alike — has a detail ending in the fixed
`(line N)` suffix, because every `add_issue` call site in `_static_scan`
passes a line number (source lines 129-204). -/
theorem static_issue_line_suffix (rx : Regexes)
    (parsed : Except SyntaxErr (List Ast)) (source : String) :
    ∀ i ∈ _static_scan rx parsed source, ∃ d n, i.detail = d ++ lineSuffix n := by
  have h0 : SuffixInv ⟨[], []⟩ := by intro i hi; cases hi
  have h1 : SuffixInv (match parsed with
      | .error e =>
          add_issue ⟨[], []⟩ "MEDIUM" ("Failed to parse Python AST: " ++ e.msg)
            (some e.lineno)
      | .ok nodes => nodes.foldl (processNode rx) ⟨[], []⟩) := by
    cases parsed with
    | error e => exact suffixInv_add_issue _ _ _ h0
    | ok nodes =>
        exact @foldl_pres _ _ SuffixInv (processNode rx)
          (fun s a hs => suffixInv_processNode rx a hs) nodes _ h0
  exact suffixInv_scanLines rx (pySplitlines source) _ 1 h1

/-- Witness for C10: the parse-failure issue of scanning the unparseable
source `"def"` carries the suffix. -/
theorem static_issue_line_suffix_witness :
    (⟨"MEDIUM", "Failed to parse Python AST: invalid syntax (line 1)"⟩ : Issue) ∈
      _static_scan rxNone (.error ⟨"invalid syntax", 1⟩) "def" ∧
    ∃ d n,
      (⟨"MEDIUM", "Failed to parse Python AST: invalid syntax (line 1)"⟩ :
        Issue).detail = d ++ lineSuffix n :=
  ⟨by decide,
   static_issue_line_suffix rxNone (.error ⟨"invalid syntax", 1⟩) "def" _
     (by decide)⟩
